import Mathlib

/-!
Verification of the rule-based medical diagnosis classifier
(`src/model.py`, class `MedicalDiagnosisModel`).

The embedding uses `ℚ` for the Python floats and association lists
`List (String × ℚ)` for the Python dictionaries (iteration in insertion
order, lookup by first occurrence of the key).
-/

namespace Medical

/-- The static symptom → importance-weight table (`symptom_weights`). -/
def symptom_weights : List (String × ℚ) :=
  [("fiebre", 0.8),
   ("dolor_cabeza", 0.6),
   ("nausea", 0.5),
   ("fatiga", 0.4),
   ("dolor_pecho", 0.9),
   ("dificultad_respirar", 0.95),
   ("dolor_abdominal", 0.7),
   ("mareos", 0.5),
   ("perdida_peso", 0.6),
   ("tos", 0.6),
   ("congestion_nasal", 0.3),
   ("dolor_garganta", 0.4),
   ("dolor_muscular", 0.4),
   ("dolor_articular", 0.5),
   ("erupcion_cutanea", 0.6),
   ("sangrado", 0.8),
   ("cambios_vision", 0.7),
   ("confusion", 0.9),
   ("convulsiones", 0.95),
   ("dolor_espalda", 0.5)]

/-- The static condition → symptom-pattern table (`disease_patterns`). -/
def disease_patterns : List (String × List String) :=
  [("infeccion_respiratoria", ["fiebre", "tos", "congestion_nasal", "dolor_garganta"]),
   ("gastroenteritis", ["nausea", "dolor_abdominal", "fatiga"]),
   ("migrana", ["dolor_cabeza", "nausea", "mareos"]),
   ("ansiedad", ["dolor_pecho", "dificultad_respirar", "mareos", "fatiga"]),
   ("diabetes", ["perdida_peso", "fatiga", "cambios_vision"]),
   ("hipertension", ["dolor_cabeza", "mareos", "dolor_pecho"]),
   ("artritis", ["dolor_articular", "dolor_muscular", "fatiga"]),
   ("enfermedad_cardiaca", ["dolor_pecho", "dificultad_respirar", "fatiga"]),
   ("enfermedad_renal", ["fatiga", "nausea", "dolor_espalda"]),
   ("enfermedad_hepatica", ["fatiga", "nausea", "dolor_abdominal", "erupcion_cutanea"]),
   ("enfermedad_autoimmune", ["fatiga", "dolor_articular", "erupcion_cutanea", "fiebre"]),
   ("cancer", ["perdida_peso", "fatiga", "dolor_abdominal", "sangrado"]),
   ("enfermedad_neurologica", ["confusion", "convulsiones", "cambios_vision", "mareos"])]

/-- The static severity-label → half-open interval table (`severity_thresholds`). -/
def severity_thresholds : List (String × ℚ × ℚ) :=
  [("NO_ENFERMO", 0, 0.3),
   ("ENFERMEDAD_LEVE", 0.3, 0.6),
   ("ENFERMEDAD_AGUDA", 0.6, 0.8),
   ("ENFERMEDAD_CRONICA", 0.8, 1)]

/-- The clamp `min(max(x, 0.0), 1.0)` applied to the normalized intensity. -/
def clamp01 (x : ℚ) : ℚ := if x ≤ 0 then 0 else if 1 ≤ x then 1 else x

/-- Embedding of `calculate_symptom_score`: iterate the input entries; for each key present
in `symptom_weights`, accumulate `clamp01(intensity/10) * weight` and the
weight itself; return sum / total when the total is nonzero, else 0. -/
def calculate_symptom_score (symptoms : List (String × ℚ)) : ℚ :=
  let acc := symptoms.foldl
    (fun (acc : ℚ × ℚ) (p : String × ℚ) =>
      match symptom_weights.lookup p.1 with
      | some w => (acc.1 + clamp01 (p.2 / 10) * w, acc.2 + w)
      | none => acc)
    (0, 0)
  if acc.2 = 0 then 0 else acc.1 / acc.2

/-- The body of the inner loop of `detect_disease_patterns`: for one pattern
symptom, the contribution added to the condition's accumulated score (0 when
the symptom is absent from the input or its intensity is not positive). -/
def patTerm (symptoms : List (String × ℚ)) (sym : String) : ℚ :=
  match symptoms.lookup sym with
  | some i => if 0 < i then clamp01 (i / 10) * ((symptom_weights.lookup sym).getD 0.5) else 0
  | none => 0

/-- Score of a single condition pattern in `detect_disease_patterns`:
accumulate `patTerm` over the pattern's symptoms, then divide by the size of
the full pattern (0 for an empty pattern). -/
def patternScore (symptoms : List (String × ℚ)) (pattern : List String) : ℚ :=
  let score := pattern.foldl (fun acc sym => acc + patTerm symptoms sym) 0
  if 0 < pattern.length then score / pattern.length else 0

/-- Embedding of `detect_disease_patterns`: one score per condition of `disease_patterns`,
in table order. -/
def detect_disease_patterns (symptoms : List (String × ℚ)) : List (String × ℚ) :=
  disease_patterns.map (fun p => (p.1, patternScore symptoms p.2))

/-- Python's binary `max` (used to fold `max(pattern_scores.values())`). -/
def qmax (a b : ℚ) : ℚ := if a < b then b else a

/-- Embedding of `max(pattern_scores.values()) if pattern_scores else 0.0`. -/
def maxPatternScore : List (String × ℚ) → ℚ
  | [] => 0
  | p :: ps => ps.foldl (fun m q => qmax m q.2) p.2

/-- Embedding of `determine_severity`: average the overall score with the best pattern
score, look the result up in the threshold table in order, fall back to
CHRONIC above 1 and to NOT-SICK otherwise. -/
def determine_severity (overall_score : ℚ) (pattern_scores : List (String × ℚ)) : String :=
  let adjusted_score := (overall_score + maxPatternScore pattern_scores) / 2
  match severity_thresholds.find?
      (fun t => decide (t.2.1 ≤ adjusted_score) && decide (adjusted_score < t.2.2)) with
  | some t => t.1
  | none =>
    if 1 ≤ adjusted_score then "ENFERMEDAD_CRONICA" else "NO_ENFERMO"

/-- Round-half-to-even to an integer, the rounding of Python's `round`. -/
def roundHalfEven (x : ℚ) : ℤ :=
  if x - ⌊x⌋ < 1/2 then ⌊x⌋
  else if 1/2 < x - ⌊x⌋ then ⌊x⌋ + 1
  else if 2 ∣ ⌊x⌋ then ⌊x⌋ else ⌊x⌋ + 1

/-- Python's `round(x, 3)`. -/
def round3 (x : ℚ) : ℚ := (roundHalfEven (x * 1000) : ℚ) / 1000

/-- Embedding of `max(pattern_scores.items(), key=lambda x: x[1])`: fold keeping the
current entry unless a strictly larger value appears (so ties keep the
first-encountered entry). -/
def maxBySnd (x : String × ℚ) (xs : List (String × ℚ)) : String × ℚ :=
  xs.foldl (fun best p => if best.2 < p.2 then p else best) x

/-- The most-likely condition and its score, with the `("ninguna", 0.0)`
default for an empty mapping. -/
def most_likely : List (String × ℚ) → String × ℚ
  | [] => ("ninguna", 0)
  | x :: xs => maxBySnd x xs

/-- Embedding of the recommendation generator: fixed advisory lists per severity label; the
`condition` argument is accepted but unused. -/
def generate_recommendations (severity : String) (condition : String) : List String :=
  if severity = "NO_ENFERMO" then
    ["Continuar con el monitoreo regular de la salud",
     "Mantener hábitos de vida saludables",
     "Consultar si aparecen nuevos síntomas"]
  else if severity = "ENFERMEDAD_LEVE" then
    ["Monitorear síntomas de cerca",
     "Considerar consulta médica si los síntomas persisten",
     "Mantener reposo y hidratación adecuada",
     "Evitar actividades extenuantes"]
  else if severity = "ENFERMEDAD_AGUDA" then
    ["CONSULTA MÉDICA INMEDIATA RECOMENDADA",
     "Buscar atención médica en las próximas 24 horas",
     "Monitorear signos vitales regularmente",
     "Evitar automedicación",
     "Considerar visita a urgencias si empeora"]
  else if severity = "ENFERMEDAD_CRONICA" then
    ["CONSULTA MÉDICA URGENTE REQUERIDA",
     "Buscar atención especializada inmediatamente",
     "Posible hospitalización requerida",
     "Monitoreo médico continuo necesario",
     "Seguimiento con especialista recomendado"]
  else []

/-- The result record of `predict_diagnosis`: the full eight-field success
record, or the reduced error record built in the `except` branch. -/
inductive DiagnosisResult where
  | ok (diagnosis : String) (confidence : ℚ) (most_likely_condition : String)
      (condition_confidence : ℚ) (symptom_score : ℚ)
      (pattern_scores : List (String × ℚ)) (recommendations : List String)
      (input_symptoms : List (String × ℚ)) : DiagnosisResult
  | err (msg : String) (diagnosis : String) (confidence : ℚ) : DiagnosisResult
deriving DecidableEq

/-- Embedding of `predict_diagnosis`: validate (at least 3 symptom entries), score, match
patterns, classify, pick the argmax condition, recommend, and assemble the
record with 3-decimal rounding; a failed validation becomes the error record. -/
def predict_diagnosis (symptoms : List (String × ℚ)) : DiagnosisResult :=
  if symptoms.length < 3 then
    .err "Se requieren al menos 3 síntomas para el diagnóstico" "ERROR" 0
  else
    let overall_score := calculate_symptom_score symptoms
    let pattern_scores := detect_disease_patterns symptoms
    let severity := determine_severity overall_score pattern_scores
    let most_likely_disease := most_likely pattern_scores
    let recommendations := generate_recommendations severity most_likely_disease.1
    .ok severity (round3 overall_score) most_likely_disease.1
      (round3 most_likely_disease.2) (round3 overall_score)
      (pattern_scores.map (fun p => (p.1, round3 p.2))) recommendations symptoms

/-- Projection: the `diagnosis` field (present in both record shapes). -/
def DiagnosisResult.diagnosis : DiagnosisResult → String
  | .ok d _ _ _ _ _ _ _ => d
  | .err _ d _ => d

/-- Projection: the `confidence` field (present in both record shapes). -/
def DiagnosisResult.confidence : DiagnosisResult → ℚ
  | .ok _ c _ _ _ _ _ _ => c
  | .err _ _ c => c

/-- Projection: the `error` field (present only in the error record). -/
def DiagnosisResult.error : DiagnosisResult → Option String
  | .ok _ _ _ _ _ _ _ _ => none
  | .err m _ _ => some m

/-- Projection: the `most_likely_condition` field of a success record. -/
def DiagnosisResult.most_likely_condition : DiagnosisResult → Option String
  | .ok _ _ m _ _ _ _ _ => some m
  | .err _ _ _ => none

/-- Projection: the `condition_confidence` field of a success record. -/
def DiagnosisResult.condition_confidence : DiagnosisResult → Option ℚ
  | .ok _ _ _ c _ _ _ _ => some c
  | .err _ _ _ => none

/-- Projection: the `symptom_score` field of a success record. -/
def DiagnosisResult.symptom_score : DiagnosisResult → Option ℚ
  | .ok _ _ _ _ s _ _ _ => some s
  | .err _ _ _ => none

/-- Projection: the `pattern_scores` field of a success record. -/
def DiagnosisResult.pattern_scores : DiagnosisResult → Option (List (String × ℚ))
  | .ok _ _ _ _ _ ps _ _ => some ps
  | .err _ _ _ => none

/-- Projection: the `recommendations` field of a success record. -/
def DiagnosisResult.recommendations : DiagnosisResult → Option (List String)
  | .ok _ _ _ _ _ _ r _ => some r
  | .err _ _ _ => none

/-- Projection: the `input_symptoms` field of a success record. -/
def DiagnosisResult.input_symptoms : DiagnosisResult → Option (List (String × ℚ))
  | .ok _ _ _ _ _ _ _ i => some i
  | .err _ _ _ => none

/-! ## Claim-side (specification) definitions

These re-state, in the spec's own words, the quantities the claims talk
about; the theorems below relate them to the implementation functions. -/

/-- Spec side: the summand `clamp(intensity/10, 0, 1) * weight` of one input
entry, 0 for an entry whose key is not in the weight table. -/
def scoreTerm (p : String × ℚ) : ℚ :=
  match symptom_weights.lookup p.1 with
  | some w => clamp01 (p.2 / 10) * w
  | none => 0

/-- Spec side: the weight contributed by one input entry, 0 for an entry
whose key is not in the weight table. -/
def weightTerm (p : String × ℚ) : ℚ :=
  match symptom_weights.lookup p.1 with
  | some w => w
  | none => 0

/-- Spec side: sum over entries whose key is in the symptom-weight table of
`clamp(intensity/10, 0, 1) * weight`. -/
def weightedSum (s : List (String × ℚ)) : ℚ := (s.map scoreTerm).sum

/-- Spec side: sum of the weights of the recognized input entries. -/
def weightTotal (s : List (String × ℚ)) : ℚ := (s.map weightTerm).sum

/-- Spec side: a condition's pattern score — the sum of `patTerm` over the
pattern's symptoms divided by the size of the full pattern. -/
def specPatternScore (s : List (String × ℚ)) (pattern : List String) : ℚ :=
  (pattern.map (patTerm s)).sum / pattern.length

/-- Spec side: the maximum of the mapping's values, 0 for the empty
mapping (`best = max(patterns.values()) or 0.0`). -/
def specBest : List (String × ℚ) → ℚ
  | [] => 0
  | p :: ps => ps.foldl (fun m q => max m q.2) p.2

/-- Spec side: the first half-open interval of `[0,0.3), [0.3,0.6),
[0.6,0.8), [0.8,1)` containing `x` gives the label; `x ≥ 1` gives CHRONIC;
anything else falls back to NOT-SICK. -/
def classifyInterval (x : ℚ) : String :=
  if 0 ≤ x ∧ x < 0.3 then "NO_ENFERMO"
  else if 0.3 ≤ x ∧ x < 0.6 then "ENFERMEDAD_LEVE"
  else if 0.6 ≤ x ∧ x < 0.8 then "ENFERMEDAD_AGUDA"
  else if 0.8 ≤ x ∧ x < 1 then "ENFERMEDAD_CRONICA"
  else if 1 ≤ x then "ENFERMEDAD_CRONICA"
  else "NO_ENFERMO"

/-- Spec side (C3): classify the average of the overall score and the best
pattern score against the explicit intervals. -/
def classify_spec (overall : ℚ) (ps : List (String × ℚ)) : String :=
  classifyInterval ((overall + specBest ps) / 2)

/-- Spec side (C5): the first entry of the mapping attaining the maximum
value (argmax by value, ties broken by first-encountered order), with the
`("ninguna", 0)` sentinel for the empty mapping. -/
def specArgmax (ps : List (String × ℚ)) : String × ℚ :=
  (ps.find? (fun p => decide (p.2 = specBest ps))).getD ("ninguna", 0)

/-- Replace the intensity stored under key `k` by `v` (the input with one
symptom's intensity changed, used by the monotonicity claim). -/
def setIntensity (s : List (String × ℚ)) (k : String) (v : ℚ) : List (String × ℚ) :=
  s.map (fun p => if p.1 = k then (k, v) else p)

/-! ## Helper lemmas -/

lemma lookup_mem {α β : Type} [BEq α] [LawfulBEq α] {k : α} {w : β} :
    ∀ {l : List (α × β)}, l.lookup k = some w → (k, w) ∈ l := by
  intro l
  induction l with
  | nil => intro h; simp [List.lookup] at h
  | cons p l ih =>
    intro h
    rw [List.lookup] at h
    by_cases hk : k == p.1
    · have hk' : k = p.1 := by simpa using hk
      simp only [hk] at h
      cases h
      subst hk'
      rw [Prod.mk.eta]
      exact List.mem_cons_self _ _
    · simp only [hk] at h
      right
      exact ih h

lemma mem_symptom_weights_bounds : ∀ p ∈ symptom_weights, 0 < p.2 ∧ p.2 ≤ 1 := by
  intro p hp
  fin_cases hp <;> exact ⟨by norm_num, by norm_num⟩

lemma lookup_weight_bounds {k : String} {w : ℚ} (h : symptom_weights.lookup k = some w) :
    0 < w ∧ w ≤ 1 :=
  mem_symptom_weights_bounds (k, w) (lookup_mem h)

lemma clamp01_nonneg (x : ℚ) : 0 ≤ clamp01 x := by
  unfold clamp01; split_ifs <;> linarith

lemma clamp01_le_one (x : ℚ) : clamp01 x ≤ 1 := by
  unfold clamp01; split_ifs <;> linarith

lemma clamp01_mono {x y : ℚ} (h : x ≤ y) : clamp01 x ≤ clamp01 y := by
  unfold clamp01; split_ifs <;> linarith

lemma scoreTerm_nonneg (p : String × ℚ) : 0 ≤ scoreTerm p := by
  unfold scoreTerm
  cases h : symptom_weights.lookup p.1 with
  | none => exact le_refl 0
  | some w => exact mul_nonneg (clamp01_nonneg _) (le_of_lt (lookup_weight_bounds h).1)

lemma weightTerm_nonneg (p : String × ℚ) : 0 ≤ weightTerm p := by
  unfold weightTerm
  cases h : symptom_weights.lookup p.1 with
  | none => exact le_refl 0
  | some w => exact le_of_lt (lookup_weight_bounds h).1

lemma scoreTerm_le_weightTerm (p : String × ℚ) : scoreTerm p ≤ weightTerm p := by
  unfold scoreTerm weightTerm
  cases h : symptom_weights.lookup p.1 with
  | none => exact le_refl 0
  | some w =>
    exact mul_le_of_le_one_left (le_of_lt (lookup_weight_bounds h).1) (clamp01_le_one _)

lemma weightedSum_nonneg (s : List (String × ℚ)) : 0 ≤ weightedSum s :=
  List.sum_nonneg (by rintro x hx; obtain ⟨p, _, rfl⟩ := List.mem_map.mp hx; exact scoreTerm_nonneg p)

lemma weightTotal_nonneg (s : List (String × ℚ)) : 0 ≤ weightTotal s :=
  List.sum_nonneg (by rintro x hx; obtain ⟨p, _, rfl⟩ := List.mem_map.mp hx; exact weightTerm_nonneg p)

lemma weightedSum_le_weightTotal (s : List (String × ℚ)) : weightedSum s ≤ weightTotal s :=
  List.sum_le_sum (fun p _ => scoreTerm_le_weightTerm p)

lemma calc_foldl_eq (s : List (String × ℚ)) (a b : ℚ) :
    s.foldl
      (fun (acc : ℚ × ℚ) (p : String × ℚ) =>
        match symptom_weights.lookup p.1 with
        | some w => (acc.1 + clamp01 (p.2 / 10) * w, acc.2 + w)
        | none => acc)
      (a, b) = (a + weightedSum s, b + weightTotal s) := by
  induction s generalizing a b with
  | nil => simp [weightedSum, weightTotal]
  | cons p l ih =>
    simp only [List.foldl_cons]
    cases h : symptom_weights.lookup p.1 with
    | none =>
      simp only [h]
      rw [ih]
      simp only [weightedSum, weightTotal, List.map_cons, List.sum_cons, scoreTerm, weightTerm, h]
      simp
    | some w =>
      simp only [h]
      rw [ih]
      simp only [weightedSum, weightTotal, List.map_cons, List.sum_cons, scoreTerm, weightTerm, h]
      rw [Prod.ext_iff]
      constructor <;> dsimp only <;> ring

lemma calculate_symptom_score_eq (s : List (String × ℚ)) :
    calculate_symptom_score s =
      if weightTotal s = 0 then 0 else weightedSum s / weightTotal s := by
  unfold calculate_symptom_score
  rw [calc_foldl_eq s 0 0]
  simp

lemma pattern_foldl_eq (s : List (String × ℚ)) (pattern : List String) (a : ℚ) :
    pattern.foldl (fun acc sym => acc + patTerm s sym) a
      = a + (pattern.map (patTerm s)).sum := by
  induction pattern generalizing a with
  | nil => simp
  | cons x xs ih =>
    simp only [List.foldl_cons, List.map_cons, List.sum_cons]
    rw [ih]
    ring

lemma patternScore_eq (s : List (String × ℚ)) (pattern : List String) :
    patternScore s pattern = specPatternScore s pattern := by
  unfold patternScore specPatternScore
  rw [pattern_foldl_eq]
  rcases pattern with _ | ⟨x, xs⟩
  · simp
  · simp

lemma getD_weight_bounds (sym : String) :
    0 ≤ (symptom_weights.lookup sym).getD 0.5
      ∧ (symptom_weights.lookup sym).getD 0.5 ≤ 1 := by
  cases h : symptom_weights.lookup sym with
  | none => simp only [Option.getD_none]; norm_num
  | some w =>
    simp only [Option.getD_some]
    exact ⟨(lookup_weight_bounds h).1.le, (lookup_weight_bounds h).2⟩

lemma patTerm_nonneg (s : List (String × ℚ)) (sym : String) : 0 ≤ patTerm s sym := by
  unfold patTerm
  cases h : s.lookup sym with
  | none => exact le_refl 0
  | some i =>
    dsimp only
    split_ifs
    · exact mul_nonneg (clamp01_nonneg _) (getD_weight_bounds sym).1
    · exact le_refl 0

lemma patTerm_le_one (s : List (String × ℚ)) (sym : String) : patTerm s sym ≤ 1 := by
  unfold patTerm
  cases h : s.lookup sym with
  | none => norm_num
  | some i =>
    dsimp only
    split_ifs
    · exact mul_le_one₀ (clamp01_le_one _) (getD_weight_bounds sym).1 (getD_weight_bounds sym).2
    · norm_num

lemma patternScore_nonneg (s : List (String × ℚ)) (pattern : List String) :
    0 ≤ patternScore s pattern := by
  rw [patternScore_eq]
  unfold specPatternScore
  refine div_nonneg ?_ (Nat.cast_nonneg _)
  exact List.sum_nonneg (by
    rintro x hx
    obtain ⟨sym, _, rfl⟩ := List.mem_map.mp hx
    exact patTerm_nonneg s sym)

lemma patternScore_le_one (s : List (String × ℚ)) (pattern : List String) :
    patternScore s pattern ≤ 1 := by
  rw [patternScore_eq]
  unfold specPatternScore
  rcases pattern with _ | ⟨x, xs⟩
  · norm_num
  · have hlen : (0 : ℚ) < ((x :: xs).length : ℚ) := by
      exact_mod_cast Nat.succ_pos xs.length
    rw [div_le_one hlen]
    have hsum := List.sum_le_card_nsmul ((x :: xs).map (patTerm s)) 1 (by
      rintro y hy
      obtain ⟨sym, _, rfl⟩ := List.mem_map.mp hy
      exact patTerm_le_one s sym)
    simpa [nsmul_eq_mul] using hsum

lemma qmax_eq_max (a b : ℚ) : qmax a b = max a b := by
  unfold qmax
  rw [max_def]
  split_ifs <;> linarith

lemma maxPatternScore_eq_specBest (ps : List (String × ℚ)) :
    maxPatternScore ps = specBest ps := by
  have hfun : (fun (m : ℚ) (q : String × ℚ) => qmax m q.2)
      = fun (m : ℚ) (q : String × ℚ) => max m q.2 := by
    funext m q
    exact qmax_eq_max m q.2
  cases ps with
  | nil => rfl
  | cons p l => simp only [maxPatternScore, specBest, hfun]

lemma severity_lookup_eq (x : ℚ) :
    (match severity_thresholds.find?
        (fun t => decide (t.2.1 ≤ x) && decide (x < t.2.2)) with
      | some t => t.1
      | none => if 1 ≤ x then "ENFERMEDAD_CRONICA" else "NO_ENFERMO")
    = classifyInterval x := by
  unfold classifyInterval
  rcases lt_or_le x (0:ℚ) with h0 | h0
  · have a1 : ¬ ((0:ℚ) ≤ x) := not_le.mpr h0
    have a2 : ¬ ((0.3:ℚ) ≤ x) := not_le.mpr (h0.trans (by norm_num))
    have a3 : ¬ ((0.6:ℚ) ≤ x) := not_le.mpr (h0.trans (by norm_num))
    have a4 : ¬ ((0.8:ℚ) ≤ x) := not_le.mpr (h0.trans (by norm_num))
    have a5 : ¬ ((1:ℚ) ≤ x) := not_le.mpr (h0.trans (by norm_num))
    simp [severity_thresholds, List.find?, a1, a2, a3, a4, a5]
  · rcases lt_or_le x (0.3:ℚ) with h3 | h3
    · simp [severity_thresholds, List.find?, h0, h3]
    · have b1 : ¬ (x < (0.3:ℚ)) := not_lt.mpr h3
      rcases lt_or_le x (0.6:ℚ) with h6 | h6
      · simp [severity_thresholds, List.find?, h3, h6, b1]
      · have b2 : ¬ (x < (0.6:ℚ)) := not_lt.mpr h6
        rcases lt_or_le x (0.8:ℚ) with h8 | h8
        · simp [severity_thresholds, List.find?, h6, h8, b1, b2]
        · have b3 : ¬ (x < (0.8:ℚ)) := not_lt.mpr h8
          rcases lt_or_le x (1:ℚ) with h1 | h1
          · simp [severity_thresholds, List.find?, h8, h1, b1, b2, b3]
          · have b4 : ¬ (x < (1:ℚ)) := not_lt.mpr h1
            simp [severity_thresholds, List.find?, h1, b1, b2, b3, b4]

lemma determine_severity_eq (overall : ℚ) (ps : List (String × ℚ)) :
    determine_severity overall ps = classify_spec overall ps := by
  unfold determine_severity classify_spec
  rw [maxPatternScore_eq_specBest]
  exact severity_lookup_eq _

/-! ## Claim theorems -/

/-- Claim C1: for every symptom input, `calculate_symptom_score` returns the
weighted average (sum over recognized entries of `clamp(intensity/10,0,1) *
weight`) / (sum of those weights) when the weight total is positive, returns
0 when no input key is in the weight table, and the result lies in [0,1]. -/
theorem calculate_symptom_score_correct (s : List (String × ℚ)) :
    calculate_symptom_score s =
      (if 0 < weightTotal s then weightedSum s / weightTotal s else 0) ∧
    (s.all (fun p => (symptom_weights.lookup p.1).isNone) →
      calculate_symptom_score s = 0) ∧
    0 ≤ calculate_symptom_score s ∧ calculate_symptom_score s ≤ 1 := by
  have h0 := weightTotal_nonneg s
  have heq := calculate_symptom_score_eq s
  refine ⟨?_, ?_, ?_, ?_⟩
  · rw [heq]
    rcases lt_or_eq_of_le h0 with h | h
    · rw [if_neg (ne_of_gt h), if_pos h]
    · rw [← h]
      simp
  · intro hall
    have hz : weightTotal s = 0 := by
      refine List.sum_eq_zero ?_
      rintro x hx
      obtain ⟨p, hp, rfl⟩ := List.mem_map.mp hx
      have hnone := List.all_eq_true.mp hall p hp
      unfold weightTerm
      cases h : symptom_weights.lookup p.1 with
      | none => rfl
      | some w => rw [h] at hnone; simp at hnone
    rw [heq, if_pos hz]
  · rw [heq]
    split_ifs with h
    · exact le_refl 0
    · exact div_nonneg (weightedSum_nonneg s) h0
  · rw [heq]
    split_ifs with h
    · norm_num
    · have hpos : 0 < weightTotal s := lt_of_le_of_ne h0 (Ne.symm h)
      exact (div_le_one hpos).mpr (weightedSum_le_weightTotal s)

/-- Claim C2: `detect_disease_patterns` returns exactly one entry per known
condition (all 13, in table order), each score being the sum over the
pattern's matched positive-intensity symptoms of `clamp(intensity/10,0,1) *
weight` (weight defaulting to 0.5) divided by the size of the full pattern,
and every returned value lies in [0,1]. -/
theorem detect_disease_patterns_correct (s : List (String × ℚ)) :
    detect_disease_patterns s =
      disease_patterns.map (fun c => (c.1, specPatternScore s c.2)) ∧
    (detect_disease_patterns s).map Prod.fst =
      ["infeccion_respiratoria", "gastroenteritis", "migrana", "ansiedad", "diabetes",
       "hipertension", "artritis", "enfermedad_cardiaca", "enfermedad_renal",
       "enfermedad_hepatica", "enfermedad_autoimmune", "cancer", "enfermedad_neurologica"] ∧
    (detect_disease_patterns s).length = 13 ∧
    ∀ q ∈ detect_disease_patterns s, 0 ≤ q.2 ∧ q.2 ≤ 1 := by
  refine ⟨?_, ?_, ?_, ?_⟩
  · simp [detect_disease_patterns, patternScore_eq]
  · simp [detect_disease_patterns, disease_patterns]
  · simp [detect_disease_patterns, disease_patterns]
  · rintro q hq
    obtain ⟨c, _, rfl⟩ := List.mem_map.mp hq
    exact ⟨patternScore_nonneg s c.2, patternScore_le_one s c.2⟩

/-- Claim C3: `determine_severity` averages the overall score with the best
pattern score (0 for an empty mapping), returns the label of the first
half-open interval containing the adjusted score, returns CHRONIC at and
above 1, and otherwise falls back to NOT-SICK; in particular
`classify(0.0, {})` is NOT-SICK and `classify(1.0, {'x': 1.0})` is CHRONIC. -/
theorem determine_severity_correct :
    (∀ (overall : ℚ) (ps : List (String × ℚ)),
      determine_severity overall ps = classify_spec overall ps) ∧
    determine_severity 0 [] = "NO_ENFERMO" ∧
    determine_severity 1 [("x", 1)] = "ENFERMEDAD_CRONICA" := by
  refine ⟨determine_severity_eq, ?_, ?_⟩
  · rw [determine_severity_eq]
    norm_num [classify_spec, specBest, classifyInterval]
  · rw [determine_severity_eq]
    norm_num [classify_spec, specBest, classifyInterval]

/-- Claim C6: the threshold table lists exactly NOT-SICK [0,0.3), MILD
[0.3,0.6), ACUTE [0.6,0.8), CHRONIC [0.8,1), and the four half-open
intervals partition [0,1): every v in [0,1) lies in exactly one of them. -/
theorem severity_thresholds_partition :
    severity_thresholds =
      [("NO_ENFERMO", 0, 0.3), ("ENFERMEDAD_LEVE", 0.3, 0.6),
       ("ENFERMEDAD_AGUDA", 0.6, 0.8), ("ENFERMEDAD_CRONICA", 0.8, 1)] ∧
    ∀ v : ℚ, 0 ≤ v → v < 1 →
      severity_thresholds.countP
        (fun t => decide (t.2.1 ≤ v) && decide (v < t.2.2)) = 1 := by
  refine ⟨rfl, ?_⟩
  intro v h0 h1
  rcases lt_or_le v (0.3:ℚ) with h3 | h3
  · have n2 : ¬ ((0.3:ℚ) ≤ v) := not_le.mpr h3
    have n3 : ¬ ((0.6:ℚ) ≤ v) := not_le.mpr (h3.trans_le (by norm_num))
    have n4 : ¬ ((0.8:ℚ) ≤ v) := not_le.mpr (h3.trans_le (by norm_num))
    simp [severity_thresholds, List.countP_cons, h0, h3, n2, n3, n4]
  · rcases lt_or_le v (0.6:ℚ) with h6 | h6
    · have n1 : ¬ (v < (0.3:ℚ)) := not_lt.mpr h3
      have n3 : ¬ ((0.6:ℚ) ≤ v) := not_le.mpr h6
      have n4 : ¬ ((0.8:ℚ) ≤ v) := not_le.mpr (h6.trans_le (by norm_num))
      simp [severity_thresholds, List.countP_cons, h3, h6, n1, n3, n4]
    · rcases lt_or_le v (0.8:ℚ) with h8 | h8
      · have n1 : ¬ (v < (0.3:ℚ)) := not_lt.mpr (le_trans (by norm_num) h6)
        have n2 : ¬ (v < (0.6:ℚ)) := not_lt.mpr h6
        have n4 : ¬ ((0.8:ℚ) ≤ v) := not_le.mpr h8
        simp [severity_thresholds, List.countP_cons, h6, h8, n1, n2, n4]
      · have n1 : ¬ (v < (0.3:ℚ)) := not_lt.mpr (le_trans (by norm_num) h8)
        have n2 : ¬ (v < (0.6:ℚ)) := not_lt.mpr (le_trans (by norm_num) h8)
        have n3 : ¬ (v < (0.8:ℚ)) := not_lt.mpr h8
        simp [severity_thresholds, List.countP_cons, h8, h1, n1, n2, n3]

/-- Witness for C6's partition property, instantiated at v = 0. -/
theorem severity_thresholds_partition_witness :
    (0:ℚ) ≤ 0 ∧ (0:ℚ) < 1 ∧
      severity_thresholds.countP
        (fun t => decide (t.2.1 ≤ (0:ℚ)) && decide ((0:ℚ) < t.2.2)) = 1 :=
  ⟨le_refl 0, by norm_num,
    severity_thresholds_partition.2 0 (le_refl 0) (by norm_num)⟩

/-- Claim C4: with fewer than 3 symptom entries (including the empty input)
`predict_diagnosis` returns the error-shaped record with diagnosis "ERROR"
and confidence 0.0 carrying the validation message; the failure is converted
internally, never surfaced as an exception (the embedding is total). -/
theorem predict_diagnosis_validation (s : List (String × ℚ)) (h : s.length < 3) :
    predict_diagnosis s =
      .err "Se requieren al menos 3 síntomas para el diagnóstico" "ERROR" 0 := by
  unfold predict_diagnosis
  rw [if_pos h]

/-- Witness for C4 at the one-entry input `{'fiebre': 8}`. -/
theorem predict_diagnosis_validation_witness :
    ([(("fiebre" : String), (8:ℚ))] : List (String × ℚ)).length < 3 ∧
      predict_diagnosis [("fiebre", 8)] =
        .err "Se requieren al menos 3 síntomas para el diagnóstico" "ERROR" 0 :=
  ⟨by decide, predict_diagnosis_validation _ (by decide)⟩

/-- Claim C8: the recommendation generator is a pure lookup independent of
its condition argument; the four severity labels map to fixed lists of 3, 4,
5 and 5 advisory strings, and any other label yields the empty list. -/
theorem generate_recommendations_lookup :
    (∀ sev c c', generate_recommendations sev c = generate_recommendations sev c') ∧
    (∀ c, (generate_recommendations "NO_ENFERMO" c).length = 3) ∧
    (∀ c, (generate_recommendations "ENFERMEDAD_LEVE" c).length = 4) ∧
    (∀ c, (generate_recommendations "ENFERMEDAD_AGUDA" c).length = 5) ∧
    (∀ c, (generate_recommendations "ENFERMEDAD_CRONICA" c).length = 5) ∧
    (∀ sev c, sev ∉ (["NO_ENFERMO", "ENFERMEDAD_LEVE", "ENFERMEDAD_AGUDA",
        "ENFERMEDAD_CRONICA"] : List String) → generate_recommendations sev c = []) := by
  refine ⟨fun sev c c' => rfl, fun c => rfl, fun c => rfl, fun c => rfl, fun c => rfl, ?_⟩
  intro sev c hsev
  simp only [List.mem_cons, List.not_mem_nil, or_false, not_or] at hsev
  obtain ⟨h1, h2, h3, h4⟩ := hsev
  simp [generate_recommendations, h1, h2, h3, h4]

/-- Witness for C8's unknown-label case at the label "OTRA". -/
theorem generate_recommendations_lookup_witness :
    ("OTRA" : String) ∉ (["NO_ENFERMO", "ENFERMEDAD_LEVE", "ENFERMEDAD_AGUDA",
        "ENFERMEDAD_CRONICA"] : List String) ∧
      generate_recommendations "OTRA" "migrana" = [] :=
  ⟨by decide, generate_recommendations_lookup.2.2.2.2.2 "OTRA" "migrana" (by decide)⟩

lemma determine_severity_mem (a : ℚ) (ps : List (String × ℚ)) :
    determine_severity a ps ∈ (["NO_ENFERMO", "ENFERMEDAD_LEVE", "ENFERMEDAD_AGUDA",
      "ENFERMEDAD_CRONICA"] : List String) := by
  rw [determine_severity_eq]
  unfold classify_spec classifyInterval
  split_ifs <;> simp

/-- Claim C9: with at least 3 symptom entries `predict_diagnosis` returns a
non-error record carrying all eight success fields, whose diagnosis is one
of the four severity labels — the defensive catch-all is unreachable once
validation passes. -/
theorem predict_diagnosis_success (s : List (String × ℚ)) (h : 3 ≤ s.length) :
    (predict_diagnosis s).error = none ∧
    (∃ d conf mlc cc ss ps recs,
      predict_diagnosis s = .ok d conf mlc cc ss ps recs s) ∧
    (predict_diagnosis s).diagnosis ∈ (["NO_ENFERMO", "ENFERMEDAD_LEVE",
      "ENFERMEDAD_AGUDA", "ENFERMEDAD_CRONICA"] : List String) := by
  have hne : ¬ s.length < 3 := not_lt.mpr h
  unfold predict_diagnosis
  rw [if_neg hne]
  refine ⟨rfl, ⟨_, _, _, _, _, _, _, rfl⟩, ?_⟩
  exact determine_severity_mem _ _

lemma maxBySnd_cases (x : String × ℚ) (xs : List (String × ℚ)) :
    maxBySnd x xs = x ∨ x.2 < (maxBySnd x xs).2 := by
  induction xs generalizing x with
  | nil => exact Or.inl rfl
  | cons y ys ih =>
    unfold maxBySnd
    simp only [List.foldl_cons]
    by_cases hxy : x.2 < y.2
    · rw [if_pos hxy]
      rcases ih y with h | h
      · right
        unfold maxBySnd at h
        rw [h]
        exact hxy
      · right
        exact hxy.trans h
    · rw [if_neg hxy]
      exact ih x

lemma le_maxBySnd (x : String × ℚ) (xs : List (String × ℚ)) :
    x.2 ≤ (maxBySnd x xs).2 := by
  rcases maxBySnd_cases x xs with h | h
  · rw [h]
  · exact le_of_lt h

lemma maxBySnd_mem (x : String × ℚ) (xs : List (String × ℚ)) :
    maxBySnd x xs ∈ x :: xs := by
  induction xs generalizing x with
  | nil => exact List.mem_singleton.mpr rfl
  | cons y ys ih =>
    have hstep : maxBySnd x (y :: ys) = maxBySnd (if x.2 < y.2 then y else x) ys := rfl
    rw [hstep]
    by_cases hxy : x.2 < y.2
    · rw [if_pos hxy]
      rcases List.mem_cons.mp (ih y) with h | h
      · rw [h]; right; exact List.mem_cons_self _ _
      · right; right; exact h
    · rw [if_neg hxy]
      rcases List.mem_cons.mp (ih x) with h | h
      · rw [h]; exact List.mem_cons_self _ _
      · right; right; exact h

lemma maxBySnd_ge (x : String × ℚ) (xs : List (String × ℚ)) :
    ∀ q ∈ x :: xs, q.2 ≤ (maxBySnd x xs).2 := by
  induction xs generalizing x with
  | nil =>
    intro q hq
    rw [List.mem_singleton.mp hq]
    exact le_refl _
  | cons y ys ih =>
    intro q hq
    have hstep : maxBySnd x (y :: ys) = maxBySnd (if x.2 < y.2 then y else x) ys := rfl
    rw [hstep]
    by_cases hxy : x.2 < y.2
    · rw [if_pos hxy]
      rcases List.mem_cons.mp hq with h | h
      · rw [h]
        exact le_of_lt (lt_of_lt_of_le hxy (le_maxBySnd y ys))
      · exact ih y q h
    · rw [if_neg hxy]
      rcases List.mem_cons.mp hq with h | h
      · rw [h]
        exact le_maxBySnd x ys
      · rcases List.mem_cons.mp h with h' | h'
        · rw [h']
          exact le_trans (not_lt.mp hxy) (le_maxBySnd x ys)
        · exact ih x q (List.mem_cons_of_mem x h')

lemma maxBySnd_find (x : String × ℚ) (xs : List (String × ℚ)) :
    (x :: xs).find? (fun p => decide (p.2 = (maxBySnd x xs).2)) = some (maxBySnd x xs) := by
  induction xs generalizing x with
  | nil =>
    rw [show maxBySnd x [] = x from rfl]
    rw [List.find?_cons_of_pos _ (by simp)]
  | cons y ys ih =>
    have hstep : maxBySnd x (y :: ys) = maxBySnd (if x.2 < y.2 then y else x) ys := rfl
    by_cases hxy : x.2 < y.2
    · rw [hstep, if_pos hxy]
      have hxB : x.2 < (maxBySnd y ys).2 := lt_of_lt_of_le hxy (le_maxBySnd y ys)
      rw [List.find?_cons_of_neg _ (by simp [hxB.ne])]
      exact ih y
    · rw [hstep, if_neg hxy]
      rcases maxBySnd_cases x ys with hcase | hcase
      · rw [hcase]
        rw [List.find?_cons_of_pos _ (by simp)]
      · have hy : y.2 ≤ x.2 := not_lt.mp hxy
        have hyB : y.2 < (maxBySnd x ys).2 := lt_of_le_of_lt hy hcase
        rw [List.find?_cons_of_neg _ (by simp [hcase.ne])]
        rw [List.find?_cons_of_neg _ (by simp [hyB.ne])]
        have hfull := ih x
        rw [List.find?_cons_of_neg _ (by simp [hcase.ne])] at hfull
        exact hfull

lemma maxBySnd_snd (x : String × ℚ) (xs : List (String × ℚ)) :
    (maxBySnd x xs).2 = xs.foldl (fun m q => max m q.2) x.2 := by
  induction xs generalizing x with
  | nil => rfl
  | cons y ys ih =>
    unfold maxBySnd
    simp only [List.foldl_cons]
    have hsnd : (if x.2 < y.2 then y else x).2 = max x.2 y.2 := by
      split_ifs with h
      · exact (max_eq_right (le_of_lt h)).symm
      · exact (max_eq_left (not_lt.mp h)).symm
    rw [show ys.foldl (fun best p => if best.2 < p.2 then p else best)
        (if x.2 < y.2 then y else x) = maxBySnd (if x.2 < y.2 then y else x) ys from rfl]
    rw [ih, hsnd]

lemma specBest_cons (x : String × ℚ) (xs : List (String × ℚ)) :
    specBest (x :: xs) = (maxBySnd x xs).2 := by
  rw [maxBySnd_snd]
  rfl

lemma most_likely_eq_specArgmax (ps : List (String × ℚ)) :
    most_likely ps = specArgmax ps := by
  cases ps with
  | nil => rfl
  | cons x xs =>
    unfold specArgmax
    simp only [specBest_cons]
    rw [maxBySnd_find x xs]
    rfl

/-- Claim C5: in every non-error result of `predict_diagnosis`,
`most_likely_condition` is the argmax by value over the pattern scores (ties
broken by first-encountered order, i.e. the first entry attaining the
maximum value), and `condition_confidence` is that condition's (rounded)
pattern score; the `("ninguna", 0.0)` default only concerns the empty
mapping, which `detect_disease_patterns` never produces. -/
theorem predict_most_likely_argmax (s : List (String × ℚ)) (h : 3 ≤ s.length) :
    (predict_diagnosis s).most_likely_condition =
      some (specArgmax (detect_disease_patterns s)).1 ∧
    (predict_diagnosis s).condition_confidence =
      some (round3 (specArgmax (detect_disease_patterns s)).2) ∧
    specArgmax (detect_disease_patterns s) ∈ detect_disease_patterns s ∧
    (∀ q ∈ detect_disease_patterns s, q.2 ≤ (specArgmax (detect_disease_patterns s)).2) := by
  have hne : ¬ s.length < 3 := not_lt.mpr h
  have hcons : ∃ x xs, detect_disease_patterns s = x :: xs := by
    refine ⟨_, _, rfl⟩
  obtain ⟨x, xs, hxs⟩ := hcons
  have harg : specArgmax (detect_disease_patterns s) = maxBySnd x xs := by
    rw [hxs, ← most_likely_eq_specArgmax]
    rfl
  constructor
  · unfold predict_diagnosis
    rw [if_neg hne]
    simp only [DiagnosisResult.most_likely_condition, most_likely_eq_specArgmax]
  constructor
  · unfold predict_diagnosis
    rw [if_neg hne]
    simp only [DiagnosisResult.condition_confidence, most_likely_eq_specArgmax]
  constructor
  · rw [harg, hxs]
    exact maxBySnd_mem x xs
  · rw [harg, hxs]
    exact maxBySnd_ge x xs

/-- Witness for C5 at the five-entry example input. -/
theorem predict_most_likely_argmax_witness :
    3 ≤ ([("fiebre", (8:ℚ)), ("dolor_cabeza", 7), ("nausea", 5), ("fatiga", 6),
        ("dolor_pecho", 3)] : List (String × ℚ)).length ∧
      (predict_diagnosis [("fiebre", 8), ("dolor_cabeza", 7), ("nausea", 5),
        ("fatiga", 6), ("dolor_pecho", 3)]).most_likely_condition =
        some (specArgmax (detect_disease_patterns [("fiebre", 8), ("dolor_cabeza", 7),
          ("nausea", 5), ("fatiga", 6), ("dolor_pecho", 3)])).1 :=
  ⟨by decide,
    (predict_most_likely_argmax [("fiebre", 8), ("dolor_cabeza", 7), ("nausea", 5),
      ("fatiga", 6), ("dolor_pecho", 3)] (by decide)).1⟩

/-- Witness for C9 at the five-entry example input. -/
theorem predict_diagnosis_success_witness :
    3 ≤ ([("fiebre", (8:ℚ)), ("dolor_cabeza", 7), ("nausea", 5), ("fatiga", 6),
        ("dolor_pecho", 3)] : List (String × ℚ)).length ∧
      (predict_diagnosis [("fiebre", 8), ("dolor_cabeza", 7), ("nausea", 5),
        ("fatiga", 6), ("dolor_pecho", 3)]).error = none :=
  ⟨by decide,
    (predict_diagnosis_success [("fiebre", 8), ("dolor_cabeza", 7), ("nausea", 5),
      ("fatiga", 6), ("dolor_pecho", 3)] (by decide)).1⟩

/-- Claim C7: in every non-error result, `confidence` and `symptom_score`
both equal the overall score rounded to 3 decimal places, `condition_confidence`
is the selected condition's rounded pattern score, every `pattern_scores`
value is the corresponding rounded raw score, and all these rounded values
are integer multiples of 1/1000. -/
theorem predict_rounding (s : List (String × ℚ)) (h : 3 ≤ s.length) :
    (predict_diagnosis s).confidence = round3 (calculate_symptom_score s) ∧
    (predict_diagnosis s).symptom_score = some ((predict_diagnosis s).confidence) ∧
    (predict_diagnosis s).condition_confidence =
      some (round3 (most_likely (detect_disease_patterns s)).2) ∧
    (predict_diagnosis s).pattern_scores =
      some ((detect_disease_patterns s).map (fun p => (p.1, round3 p.2))) ∧
    (∀ q ∈ ((predict_diagnosis s).pattern_scores).getD [],
      ∃ n : ℤ, q.2 = (n : ℚ) / 1000) ∧
    (∃ n : ℤ, (predict_diagnosis s).confidence = (n : ℚ) / 1000) := by
  have hne : ¬ s.length < 3 := not_lt.mpr h
  unfold predict_diagnosis
  rw [if_neg hne]
  refine ⟨rfl, rfl, rfl, rfl, ?_, ?_⟩
  · intro q hq
    simp only [DiagnosisResult.pattern_scores, Option.getD_some] at hq
    obtain ⟨p, _, rfl⟩ := List.mem_map.mp hq
    exact ⟨roundHalfEven (p.2 * 1000), rfl⟩
  · exact ⟨roundHalfEven (calculate_symptom_score s * 1000), rfl⟩

/-- Witness for C7 at the five-entry example input. -/
theorem predict_rounding_witness :
    3 ≤ ([("fiebre", (8:ℚ)), ("dolor_cabeza", 7), ("nausea", 5), ("fatiga", 6),
        ("dolor_pecho", 3)] : List (String × ℚ)).length ∧
      (predict_diagnosis [("fiebre", 8), ("dolor_cabeza", 7), ("nausea", 5),
        ("fatiga", 6), ("dolor_pecho", 3)]).symptom_score =
      some ((predict_diagnosis [("fiebre", 8), ("dolor_cabeza", 7), ("nausea", 5),
        ("fatiga", 6), ("dolor_pecho", 3)]).confidence) :=
  ⟨by decide,
    (predict_rounding [("fiebre", 8), ("dolor_cabeza", 7), ("nausea", 5),
      ("fatiga", 6), ("dolor_pecho", 3)] (by decide)).2.1⟩

lemma weightTotal_setIntensity (s : List (String × ℚ)) (k : String) (v' : ℚ) :
    weightTotal (setIntensity s k v') = weightTotal s := by
  unfold weightTotal setIntensity
  rw [List.map_map]
  refine congrArg List.sum (List.map_congr_left ?_)
  intro p _
  by_cases hk : p.1 = k
  · simp [Function.comp, weightTerm, if_pos hk, hk]
  · simp [Function.comp, weightTerm, if_neg hk]

lemma value_at_key {s : List (String × ℚ)} {k : String} {v : ℚ}
    (hnd : (s.map Prod.fst).Nodup) (hv : s.lookup k = some v) :
    ∀ p ∈ s, p.1 = k → p.2 = v := by
  induction s with
  | nil => intro p hp; cases hp
  | cons q l ih =>
    rw [List.map_cons, List.nodup_cons] at hnd
    obtain ⟨hq, hl⟩ := hnd
    intro p hp hpk
    by_cases hkq : k = q.1
    · have hb : (k == q.1) = true := beq_iff_eq.mpr hkq
      rw [List.lookup, hb] at hv
      have hv2 : q.2 = v := Option.some.inj hv
      rcases List.mem_cons.mp hp with hcase | hcase
      · rw [hcase]; exact hv2
      · exfalso
        have : p.1 ∈ l.map Prod.fst := List.mem_map_of_mem Prod.fst hcase
        rw [hpk, hkq] at this
        exact hq this
    · have hb : (k == q.1) = false := beq_eq_false_iff_ne.mpr hkq
      rw [List.lookup, hb] at hv
      rcases List.mem_cons.mp hp with hcase | hcase
      · exfalso
        rw [hcase] at hpk
        exact hkq hpk.symm
      · exact ih hl hv p hcase hpk

lemma scoreTerm_mono_entry {k : String} {v v' : ℚ} (hle : v ≤ v') (p : String × ℚ)
    (hpv : p.1 = k → p.2 = v) :
    scoreTerm p ≤ scoreTerm (if p.1 = k then (k, v') else p) := by
  by_cases hk : p.1 = k
  · rw [if_pos hk]
    have h2 : p.2 = v := hpv hk
    unfold scoreTerm
    dsimp only
    rw [← hk]
    cases hw : symptom_weights.lookup p.1 with
    | none => exact le_refl 0
    | some w =>
      dsimp only
      have hpv' : p.2 ≤ v' := le_trans (le_of_eq h2) hle
      exact mul_le_mul_of_nonneg_right
        (clamp01_mono (div_le_div_of_nonneg_right hpv' (by norm_num)))
        (lookup_weight_bounds hw).1.le
  · rw [if_neg hk]

lemma weightedSum_mono {s : List (String × ℚ)} {k : String} {v v' : ℚ}
    (hnd : (s.map Prod.fst).Nodup) (hv : s.lookup k = some v) (hle : v ≤ v') :
    weightedSum s ≤ weightedSum (setIntensity s k v') := by
  unfold weightedSum setIntensity
  rw [List.map_map]
  refine List.sum_le_sum ?_
  intro p hp
  exact scoreTerm_mono_entry hle p (fun hk => value_at_key hnd hv p hp hk)

lemma lookup_setIntensity (s : List (String × ℚ)) (k : String) (v' : ℚ) (j : String) :
    (setIntensity s k v').lookup j =
      if j = k then (s.lookup k).map (fun _ => v') else s.lookup j := by
  induction s with
  | nil => by_cases hj : j = k <;> simp [setIntensity, hj]
  | cons q l ih =>
    unfold setIntensity
    unfold setIntensity at ih
    simp only [List.map_cons]
    by_cases hq : q.1 = k
    · rw [if_pos hq]
      by_cases hj : j = k
      · subst hj
        rw [if_pos rfl]
        have hb1 : (j == j) = true := beq_iff_eq.mpr rfl
        have hb2 : (j == q.1) = true := beq_iff_eq.mpr hq.symm
        rw [List.lookup, List.lookup, hb1, hb2]
        rfl
      · rw [if_neg hj]
        have hb1 : (j == k) = false := beq_eq_false_iff_ne.mpr hj
        have hb2 : (j == q.1) = false := beq_eq_false_iff_ne.mpr (by rw [hq]; exact hj)
        rw [List.lookup, List.lookup, hb1, hb2]
        rw [ih, if_neg hj]
    · rw [if_neg hq]
      by_cases hj : j = k
      · rw [if_pos hj]
        have hjq : (j == q.1) = false :=
          beq_eq_false_iff_ne.mpr (by rw [hj]; exact fun h => hq h.symm)
        have hkq : (k == q.1) = false :=
          beq_eq_false_iff_ne.mpr (fun h => hq h.symm)
        rw [List.lookup, List.lookup, hjq, hkq]
        rw [ih, if_pos hj]
      · rw [if_neg hj]
        by_cases hjq : j = q.1
        · have hb : (j == q.1) = true := beq_iff_eq.mpr hjq
          rw [List.lookup, List.lookup, hb]
        · have hb : (j == q.1) = false := beq_eq_false_iff_ne.mpr hjq
          rw [List.lookup, List.lookup, hb]
          rw [ih, if_neg hj]

lemma patTerm_mono {s : List (String × ℚ)} {k : String} {v v' : ℚ}
    (hv : s.lookup k = some v) (hle : v ≤ v') (sym : String) :
    patTerm s sym ≤ patTerm (setIntensity s k v') sym := by
  unfold patTerm
  rw [lookup_setIntensity]
  by_cases hj : sym = k
  · rw [if_pos hj, hj, hv]
    simp only [Option.map_some']
    by_cases h0 : 0 < v
    · rw [if_pos h0, if_pos (lt_of_lt_of_le h0 hle)]
      exact mul_le_mul_of_nonneg_right
        (clamp01_mono (div_le_div_of_nonneg_right hle (by norm_num)))
        (getD_weight_bounds k).1
    · rw [if_neg h0]
      by_cases h0' : 0 < v'
      · rw [if_pos h0']
        exact mul_nonneg (clamp01_nonneg _) (getD_weight_bounds k).1
      · rw [if_neg h0']
  · rw [if_neg hj]

lemma patternScore_mono {s : List (String × ℚ)} {k : String} {v v' : ℚ}
    (hv : s.lookup k = some v) (hle : v ≤ v') (pattern : List String) :
    patternScore s pattern ≤ patternScore (setIntensity s k v') pattern := by
  rw [patternScore_eq, patternScore_eq]
  unfold specPatternScore
  refine div_le_div_of_nonneg_right ?_ (Nat.cast_nonneg _)
  exact List.sum_le_sum (fun sym _ => patTerm_mono hv hle sym)

lemma forall₂_map_map {α β γ : Type} (R : β → γ → Prop) (f : α → β) (g : α → γ) :
    ∀ l : List α, (∀ a ∈ l, R (f a) (g a)) → List.Forall₂ R (l.map f) (l.map g) := by
  intro l
  induction l with
  | nil => intro _; exact List.Forall₂.nil
  | cons a l ih =>
    intro h
    exact List.Forall₂.cons (h a (List.mem_cons_self a l))
      (ih (fun b hb => h b (List.mem_cons_of_mem a hb)))

/-- Claim C10: both scoring functions are monotone in each intensity — for an
input whose (unique) entry for key `k` holds intensity `v`, raising it to any
`v' ≥ v` never decreases `calculate_symptom_score` and never decreases any
condition's score in `detect_disease_patterns` (pointwise, condition by
condition). -/
theorem scoring_monotone (s : List (String × ℚ)) (k : String) (v v' : ℚ)
    (hnd : (s.map Prod.fst).Nodup) (hv : s.lookup k = some v) (hle : v ≤ v') :
    calculate_symptom_score s ≤ calculate_symptom_score (setIntensity s k v') ∧
    List.Forall₂ (fun p q => p.1 = q.1 ∧ p.2 ≤ q.2)
      (detect_disease_patterns s) (detect_disease_patterns (setIntensity s k v')) := by
  constructor
  · rw [calculate_symptom_score_eq, calculate_symptom_score_eq, weightTotal_setIntensity]
    split_ifs with h
    · exact le_refl 0
    · exact div_le_div_of_nonneg_right (weightedSum_mono hnd hv hle) (weightTotal_nonneg s)
  · unfold detect_disease_patterns
    refine forall₂_map_map _ _ _ disease_patterns ?_
    intro c _
    exact ⟨rfl, patternScore_mono hv hle c.2⟩

/-- Witness for C1: the bounds instantiated at the input `{'fiebre': 10}`. -/
theorem calculate_symptom_score_correct_witness :
    0 ≤ calculate_symptom_score [("fiebre", (10:ℚ))] ∧
      calculate_symptom_score [("fiebre", (10:ℚ))] ≤ 1 :=
  ⟨(calculate_symptom_score_correct [("fiebre", 10)]).2.2.1,
    (calculate_symptom_score_correct [("fiebre", 10)]).2.2.2⟩

/-- Witness for C2: the per-condition formula instantiated at `{'fiebre': 10}`. -/
theorem detect_disease_patterns_correct_witness :
    detect_disease_patterns [("fiebre", (10:ℚ))] =
      disease_patterns.map (fun c => (c.1, specPatternScore [("fiebre", (10:ℚ))] c.2)) :=
  (detect_disease_patterns_correct [("fiebre", 10)]).1

/-- Witness for C3: the edge case `classify(0.0, {})`. -/
theorem determine_severity_correct_witness :
    determine_severity 0 [] = "NO_ENFERMO" :=
  determine_severity_correct.2.1

/-- Witness for C10: raising 'fiebre' from 5 to 9 in a three-symptom input. -/
theorem scoring_monotone_witness :
    (([("fiebre", (5:ℚ)), ("nausea", 3), ("tos", 2)] : List (String × ℚ)).map
        Prod.fst).Nodup ∧
    ([("fiebre", (5:ℚ)), ("nausea", 3), ("tos", 2)] : List (String × ℚ)).lookup
        "fiebre" = some 5 ∧
    (5:ℚ) ≤ 9 ∧
    calculate_symptom_score [("fiebre", 5), ("nausea", 3), ("tos", 2)] ≤
      calculate_symptom_score
        (setIntensity [("fiebre", 5), ("nausea", 3), ("tos", 2)] "fiebre" 9) :=
  ⟨by decide, by simp [List.lookup], by norm_num,
    (scoring_monotone [("fiebre", 5), ("nausea", 3), ("tos", 2)] "fiebre" 5 9
      (by decide) (by simp [List.lookup]) (by norm_num)).1⟩

end Medical
